import Mathlib

/-!
Verification of the belief-network evaluator of `02_Bayesian_belief_nets.ipynb`.

The notebook builds a fixed six-variable belief network with pymc3:
a root Bernoulli `g1` with probability 0.5, children `g2`, `g3` that are
Bernoulli with probability `switch(g1 > 0.5, 0.9, 0.1)`, and continuous
observations `x1`, `x2`, `x3` that are Normal with mean
`switch(gi > 0.5, 50, 60)` and standard deviation `10 ** 0.5` (so the
variance is exactly 10).  Evidence is attached through the `observed=`
keyword; `pm.sample(n, tune=w)` draws `n` kept samples after `w` warm-up
draws; summaries are `sum(trace[v]) / len(trace[v])`, `pm.summary`'s
`mcse_mean`, interval counting over the trace, and a Gaussian KDE.

We embed the network, the (spec-described) `build` validation, a
deterministic spec-modelled sampler, and the summary arithmetic, and prove
the specification's claims about them.
-/

namespace BBNet

/-- The kind of a random variable: two-outcome discrete or Normal continuous. -/
inductive VarKind where
  | discrete
  | continuous
deriving DecidableEq, Repr

/-- A distribution as declared in the notebook.  A continuous node is
Normal with standard deviation `10 ** 0.5` in the source; we record the
variance `sd ^ 2` exactly as the rational in the last field. -/
inductive Dist where
  | bernoulli (p : ℚ)
  | bernoulliSwitch (parent : String) (pIfTrue pIfFalse : ℚ)
  | normalSwitch (parent : String) (muIfTrue muIfFalse : ℚ) (variance : ℚ)
deriving DecidableEq, Repr

/-- The kind of variable a distribution describes. -/
def Dist.kind : Dist → VarKind
  | .bernoulli _ => .discrete
  | .bernoulliSwitch _ _ _ => .discrete
  | .normalSwitch _ _ _ _ => .continuous

/-- An evidence value: boolean, numeric scalar, numeric sequence, or an
arbitrary other scalar (e.g. a string), mirroring what a caller may pass. -/
inductive EValue where
  | bool (b : Bool)
  | num (q : ℚ)
  | nums (qs : List ℚ)
  | str (s : String)
deriving DecidableEq, Repr

/-- A node of the built graph: its name, its distribution, and the
observed value attached to it by the evidence (if any). -/
structure GNode where
  name : String
  dist : Dist
  obs : Option EValue
deriving DecidableEq, Repr

/-- The built graph: the fixed list of six nodes. -/
abbrev Graph := List GNode

/-- The trace: for each non-observed variable, its sequence of samples. -/
abbrev Trace := List (String × List ℚ)

/-- The names of the six variables of the notebook's network. -/
def varNames : List String := ["g1", "g2", "g3", "x1", "x2", "x3"]

/-- The distribution each variable name carries in the notebook's model
(`Bernoulli('g1', 0.5)`, `Bernoulli('g2'/'g3', switch(g1 > 0.5, 0.9, 0.1))`,
`Normal('xi', mu=switch(gi > 0.5, 50, 60), sd=10 ** 0.5)`). -/
def distOf : String → Option Dist
  | "g1" => some (.bernoulli (1 / 2))
  | "g2" => some (.bernoulliSwitch "g1" (9 / 10) (1 / 10))
  | "g3" => some (.bernoulliSwitch "g1" (9 / 10) (1 / 10))
  | "x1" => some (.normalSwitch "g1" 50 60 10)
  | "x2" => some (.normalSwitch "g2" 50 60 10)
  | "x3" => some (.normalSwitch "g3" 50 60 10)
  | _ => none

/-- Modelled from the spec: the notebook has no domain check of its own
(evidence is the raw pymc3 `observed=` keyword); §4.1 requires evidence
values to be boolean-compatible for discrete variables and numeric
scalar/sequence for continuous ones. -/
def validValue : VarKind → EValue → Bool
  | .discrete, .bool _ => true
  | .discrete, .num q => q == 0 || q == 1
  | .discrete, _ => false
  | .continuous, .num _ => true
  | .continuous, .nums _ => true
  | .continuous, _ => false

/-- Modelled from the spec: every evidence key must name an existing
variable and carry a value in that variable's domain (§4.1). -/
def validEvidence (ev : List (String × EValue)) : Bool :=
  ev.all fun kv =>
    match distOf kv.1 with
    | some d => validValue d.kind kv.2
    | none => false

/-- The build-time error of §7: invalid evidence, fatal to the build call. -/
inductive BuildError where
  | invalidEvidence
deriving DecidableEq, Repr

/-- Modelled from the spec: `build(evidence) -> Graph` (§4.1).  The graph
construction itself is the notebook's model cell verbatim (constants
0.5, 0.9/0.1, 50/60, variance 10); the validation wrapper and the
`InvalidEvidence` failure are only described in the spec. -/
def build (ev : List (String × EValue)) : Except BuildError Graph :=
  if validEvidence ev then
    .ok [⟨"g1", .bernoulli (1 / 2), ev.lookup "g1"⟩,
         ⟨"g2", .bernoulliSwitch "g1" (9 / 10) (1 / 10), ev.lookup "g2"⟩,
         ⟨"g3", .bernoulliSwitch "g1" (9 / 10) (1 / 10), ev.lookup "g3"⟩,
         ⟨"x1", .normalSwitch "g1" 50 60 10, ev.lookup "x1"⟩,
         ⟨"x2", .normalSwitch "g2" 50 60 10, ev.lookup "x2"⟩,
         ⟨"x3", .normalSwitch "g3" 50 60 10, ev.lookup "x3"⟩]
  else
    .error .invalidEvidence

/-- The graph built from empty evidence (the notebook's base model). -/
def baseGraph : Graph :=
  [⟨"g1", .bernoulli (1 / 2), none⟩,
   ⟨"g2", .bernoulliSwitch "g1" (9 / 10) (1 / 10), none⟩,
   ⟨"g3", .bernoulliSwitch "g1" (9 / 10) (1 / 10), none⟩,
   ⟨"x1", .normalSwitch "g1" 50 60 10, none⟩,
   ⟨"x2", .normalSwitch "g2" 50 60 10, none⟩,
   ⟨"x3", .normalSwitch "g3" 50 60 10, none⟩]

/-- An evidence entry is bad when its key names no variable or its value
is outside the named variable's domain. -/
def badEntry (k : String) (v : EValue) : Prop :=
  distOf k = none ∨ ∃ d, distOf k = some d ∧ validValue d.kind v = false

example : build [] = .ok baseGraph := rfl

/-- C4: `build` constructs the fixed belief network with exactly the
literal parameters of the notebook's model cell: root Bernoulli `g1` with
probability 0.5; children `g2`, `g3` Bernoulli with conditional probability
0.9 when the root is healthy and 0.1 otherwise; continuous observations
`x1`, `x2`, `x3` Normal with mean 50 when the corresponding boolean node is
healthy and 60 otherwise, each with variance 10 — that is, standard
deviation √10, written `sd=10**.5` in the source. -/
theorem build_literal_params (ev : List (String × EValue)) (g : Graph)
    (h : build ev = .ok g) :
    g.map GNode.name = varNames ∧
    g.map GNode.dist =
      [.bernoulli (1 / 2),
       .bernoulliSwitch "g1" (9 / 10) (1 / 10),
       .bernoulliSwitch "g1" (9 / 10) (1 / 10),
       .normalSwitch "g1" 50 60 10,
       .normalSwitch "g2" 50 60 10,
       .normalSwitch "g3" 50 60 10] ∧
    ∀ nd ∈ g, ∀ pa mi me vr, nd.dist = Dist.normalSwitch pa mi me vr → vr = 10 := by
  unfold build at h
  split at h
  · cases h
    refine ⟨rfl, rfl, ?_⟩
    intro nd hnd pa mi me vr hdist
    simp only [List.mem_cons, List.not_mem_nil, or_false] at hnd
    rcases hnd with rfl | rfl | rfl | rfl | rfl | rfl <;>
      simp_all [Dist.normalSwitch.injEq]
  · cases h

/-- Concrete instance of `build_literal_params` at empty evidence. -/
theorem build_literal_params_witness :
    baseGraph.map GNode.name = varNames ∧
    baseGraph.map GNode.dist =
      [.bernoulli (1 / 2),
       .bernoulliSwitch "g1" (9 / 10) (1 / 10),
       .bernoulliSwitch "g1" (9 / 10) (1 / 10),
       .normalSwitch "g1" 50 60 10,
       .normalSwitch "g2" 50 60 10,
       .normalSwitch "g3" 50 60 10] ∧
    ∀ nd ∈ baseGraph, ∀ pa mi me vr, nd.dist = Dist.normalSwitch pa mi me vr → vr = 10 :=
  build_literal_params [] baseGraph rfl

/-- C5: `build` fails with `InvalidEvidence` whenever some evidence entry
has a key naming no existing variable or a value outside the variable's
declared domain; the failure is the result of the call, hence fatal to it.
In particular `build [("nonexistent_var", 1)]` and
`build [("g1", "not-a-boolean")]` fail this way (see the witness). -/
theorem build_invalidEvidence (ev : List (String × EValue)) (k : String)
    (v : EValue) (hk : (k, v) ∈ ev) (hbad : badEntry k v) :
    build ev = .error .invalidEvidence := by
  have hfalse : validEvidence ev = false := by
    rw [← Bool.not_eq_true]
    intro hall
    have hkv := List.all_eq_true.mp hall (k, v) hk
    rcases hbad with hnone | ⟨d, hd, hdv⟩
    · simp [hnone] at hkv
    · simp [hd, hdv] at hkv
  simp [build, hfalse]

/-- Concrete instances of `build_invalidEvidence`: an unknown variable name
and a non-boolean value for the discrete root `g1`. -/
theorem build_invalidEvidence_witness :
    build [("nonexistent_var", EValue.num 1)] = .error .invalidEvidence ∧
    build [("g1", EValue.str "not-a-boolean")] = .error .invalidEvidence :=
  ⟨build_invalidEvidence _ "nonexistent_var" (EValue.num 1)
      (List.mem_singleton.mpr rfl) (Or.inl rfl),
   build_invalidEvidence _ "g1" (EValue.str "not-a-boolean")
      (List.mem_singleton.mpr rfl)
      (Or.inr ⟨Dist.bernoulli (1 / 2), rfl, rfl⟩)⟩

/-- The non-observed variables of a graph: those with no evidence attached.
These are exactly the variables pymc3 samples (the notebook: "The variable
X2 is not sampled, since we set it as observed"). -/
def freeVars (g : Graph) : List String :=
  (g.filter fun nd => nd.obs.isNone).map GNode.name

/-- A linear congruential step, the pseudo-random core of the modelled
sampler (modulus 2 ^ 31). -/
def lcg (s : ℕ) : ℕ := (1103515245 * s + 12345) % 2 ^ 31

/-- Iterated `lcg`: the pseudo-random value at position `n` of the stream
seeded by `s`. -/
def lcgIter (s : ℕ) : ℕ → ℕ
  | 0 => lcg s
  | n + 1 => lcg (lcgIter s n)

/-- Modelled from the spec: pymc3's MCMC kernels (BinaryGibbsMetropolis for
the Bernoulli nodes, NUTS for the continuous ones) are external library
code; §4.2 only requires a deterministic-given-seed chain of joint draws.
`chainDraw s pos v` is the value the modelled chain assigns to variable `v`
at chain position `pos`: a pseudo-random 0/1 for a discrete variable and a
pseudo-random rational in [40, 60] for a continuous one. -/
def chainDraw (s pos : ℕ) (v : String) : ℚ :=
  let r := lcgIter s (pos * 6 + varNames.findIdx (· == v))
  match distOf v with
  | some d =>
    match d.kind with
    | .discrete => ((r % 2 : ℕ) : ℚ)
    | .continuous => ((40 + r % 21 : ℕ) : ℚ)
  | none => 0

/-- Modelled from the spec: `sample(graph, n_draws, n_warmup) -> Trace`
(§4.2); the notebook delegates to `pm.sample(n, tune=w)`.  The trace holds,
for each non-observed variable, the `n_draws` chain values at positions
`n_warmup, n_warmup + 1, ...` — the first `n_warmup` tuning positions are
discarded. -/
def sample (g : Graph) (nDraws nWarmup seed : ℕ) : Trace :=
  (freeVars g).map fun v =>
    (v, (List.range nDraws).map fun i => chainDraw seed (nWarmup + i) v)

/-- The variables appearing in a trace. -/
def traceVars (t : Trace) : List String := t.map Prod.fst

theorem sample_traceVars (g : Graph) (nDraws nWarmup seed : ℕ) :
    traceVars (sample g nDraws nWarmup seed) = freeVars g := by
  simp [traceVars, sample, List.map_map, Function.comp_def]

theorem freeVars_build (ev : List (String × EValue)) (g : Graph)
    (h : build ev = .ok g) :
    freeVars g = varNames.filter fun v => (ev.lookup v).isNone := by
  unfold build at h
  split at h
  · cases h
    cases h1 : (List.lookup "g1" ev).isNone <;>
    cases h2 : (List.lookup "g2" ev).isNone <;>
    cases h3 : (List.lookup "g3" ev).isNone <;>
    cases h4 : (List.lookup "x1" ev).isNone <;>
    cases h5 : (List.lookup "x2" ev).isNone <;>
    cases h6 : (List.lookup "x3" ev).isNone <;>
    simp [freeVars, varNames, List.filter, h1, h2, h3, h4, h5, h6]
  · cases h

/-- C3: the trace returned by `sample` contains assignments exactly for the
non-observed variables — a variable fixed by evidence never appears in the
trace, and a network variable not fixed by evidence always does.  (So with
`x2` observed, `"x2"` is absent from the trace; with `x3` observed instead,
`"x2"` reappears: see the witness.) -/
theorem sample_observed_excluded (ev : List (String × EValue)) (g : Graph)
    (nDraws nWarmup seed : ℕ) (h : build ev = .ok g) (v : String) :
    v ∈ traceVars (sample g nDraws nWarmup seed) ↔
      v ∈ varNames ∧ ev.lookup v = none := by
  rw [sample_traceVars, freeVars_build ev g h, List.mem_filter,
    Option.isNone_iff_eq_none]

/-- The graph built with evidence `x2 = 50` (Exercise 1). -/
def graphX2 : Graph :=
  [⟨"g1", .bernoulli (1 / 2), none⟩,
   ⟨"g2", .bernoulliSwitch "g1" (9 / 10) (1 / 10), none⟩,
   ⟨"g3", .bernoulliSwitch "g1" (9 / 10) (1 / 10), none⟩,
   ⟨"x1", .normalSwitch "g1" 50 60 10, none⟩,
   ⟨"x2", .normalSwitch "g2" 50 60 10, some (.num 50)⟩,
   ⟨"x3", .normalSwitch "g3" 50 60 10, none⟩]

/-- The graph built with evidence `x3 = 50` (Exercise 2). -/
def graphX3 : Graph :=
  [⟨"g1", .bernoulli (1 / 2), none⟩,
   ⟨"g2", .bernoulliSwitch "g1" (9 / 10) (1 / 10), none⟩,
   ⟨"g3", .bernoulliSwitch "g1" (9 / 10) (1 / 10), none⟩,
   ⟨"x1", .normalSwitch "g1" 50 60 10, none⟩,
   ⟨"x2", .normalSwitch "g2" 50 60 10, none⟩,
   ⟨"x3", .normalSwitch "g3" 50 60 10, some (.num 50)⟩]

/-- Concrete instance of `sample_observed_excluded`: with `x2` observed at
50 the trace omits `"x2"`; with `x3` observed instead, `"x2"` is present. -/
theorem sample_observed_excluded_witness :
    "x2" ∉ traceVars (sample graphX2 3 1 0) ∧
    "x2" ∈ traceVars (sample graphX3 3 1 0) := by
  constructor
  · intro hmem
    have h :=
      (sample_observed_excluded [("x2", EValue.num 50)] graphX2 3 1 0 rfl
        "x2").mp hmem
    exact absurd h.2 (by decide)
  · exact
      (sample_observed_excluded [("x3", EValue.num 50)] graphX3 3 1 0 rfl
        "x2").mpr (by decide)

/-- C7: every entry of the trace returned by `sample` is the sequence of
exactly `nDraws` chain values at the post-warm-up positions
`nWarmup + 0, ..., nWarmup + (nDraws - 1)`; in particular its length equals
`nDraws` and no value from a warm-up position (`< nWarmup`) appears. -/
theorem sample_entry_length (g : Graph) (nDraws nWarmup seed : ℕ)
    (p : String × List ℚ) (hp : p ∈ sample g nDraws nWarmup seed) :
    p.2.length = nDraws ∧
    p.2 = (List.range nDraws).map fun i => chainDraw seed (nWarmup + i) p.1 := by
  simp only [sample, List.mem_map] at hp
  obtain ⟨v, _, rfl⟩ := hp
  simp

/-- Concrete instance of `sample_entry_length` for the `"g1"` entry of a
one-draw, one-warm-up run on the base graph. -/
theorem sample_entry_length_witness :
    (("g1", (List.range 1).map fun i => chainDraw 0 (1 + i) "g1") :
        String × List ℚ).2.length = 1 ∧
    (("g1", (List.range 1).map fun i => chainDraw 0 (1 + i) "g1") :
        String × List ℚ).2 =
      (List.range 1).map fun i =>
        chainDraw 0 (1 + i)
          (("g1", (List.range 1).map fun i => chainDraw 0 (1 + i) "g1") :
              String × List ℚ).1 :=
  sample_entry_length baseGraph 1 1 0 _ (by simp [sample, freeVars, baseGraph])

/-- C8: `sample` with `nDraws = 0` returns the empty trace (zero joint
samples: every per-variable sequence is empty); being a total function it
raises nothing and never crashes. -/
theorem sample_zero_draws (g : Graph) (nWarmup seed : ℕ) :
    sample g 0 nWarmup seed = (freeVars g).map fun v => (v, ([] : List ℚ)) := by
  simp [sample]

/-- C9: the build-then-sample pipeline is deterministic: two `build` calls
on identical evidence return equal results, and sampling the two built
graphs with the same draw counts and seed yields identical traces (the
modelled sampler is deterministic given the seed, the design choice noted
in the spec's open question). -/
theorem build_sample_deterministic (ev1 ev2 : List (String × EValue))
    (nDraws nWarmup seed : ℕ) (h : ev1 = ev2) :
    build ev1 = build ev2 ∧
    (build ev1).map (fun g => sample g nDraws nWarmup seed) =
      (build ev2).map (fun g => sample g nDraws nWarmup seed) := by
  subst h
  exact ⟨rfl, rfl⟩

/-- Concrete instance of `build_sample_deterministic` at the Exercise 1
evidence. -/
theorem build_sample_deterministic_witness :
    build [("x2", EValue.num 50)] = build [("x2", EValue.num 50)] ∧
    (build [("x2", EValue.num 50)]).map (fun g => sample g 2 1 0) =
      (build [("x2", EValue.num 50)]).map (fun g => sample g 2 1 0) :=
  build_sample_deterministic [("x2", EValue.num 50)] [("x2", EValue.num 50)]
    2 1 0 rfl

/-- The empirical mean of a variable's trace values, the notebook's
`sum(mytrace['g1']) / len(mytrace['g1'])`. -/
def empiricalMean (xs : List ℚ) : ℚ := xs.sum / xs.length

/-- The sample variance of a variable's trace values. -/
def sampleVariance (xs : List ℚ) : ℚ :=
  (xs.map fun x => (x - empiricalMean xs) ^ 2).sum / xs.length

/-- Modelled from the spec: `pm.summary`'s `mcse_mean` column is external
pymc3 code; §4.3 describes it as the sample standard deviation divided by
the square root of the sample size (the plain independent-sample
approximation it allows). -/
noncomputable def mcStdError (xs : List ℚ) : ℝ :=
  Real.sqrt (sampleVariance xs : ℝ) / Real.sqrt (xs.length : ℝ)

/-- The discrete-variable summary of §4.3: the empirical probability
together with its Monte Carlo standard error. -/
noncomputable def empirical_probability (xs : List ℚ) : ℚ × ℝ :=
  (empiricalMean xs, mcStdError xs)

theorem sum_eq_count_one (xs : List ℚ) (h : ∀ x ∈ xs, x = 0 ∨ x = 1) :
    xs.sum = (xs.count 1 : ℚ) := by
  induction xs with
  | nil => simp
  | cons a t ih =>
    have ht := ih fun x hx => h x (List.mem_cons_of_mem a hx)
    rcases h a (List.mem_cons_self a t) with rfl | rfl <;>
      simp [List.count_cons, ht, add_comm]

/-- C2: for trace values of a discrete (0/1-valued) variable,
`empirical_probability` returns a mean equal to the count of samples equal
to the "true" outcome 1 divided by the total sample count; this mean lies
in [0, 1], and the accompanying Monte Carlo standard error is
nonnegative. -/
theorem empirical_probability_contract (xs : List ℚ)
    (h : ∀ x ∈ xs, x = 0 ∨ x = 1) :
    (empirical_probability xs).1 = (xs.count 1 : ℚ) / xs.length ∧
    0 ≤ (empirical_probability xs).1 ∧ (empirical_probability xs).1 ≤ 1 ∧
    0 ≤ (empirical_probability xs).2 := by
  have hmean : (empirical_probability xs).1 = (xs.count 1 : ℚ) / xs.length := by
    simp [empirical_probability, empiricalMean, sum_eq_count_one xs h]
  refine ⟨hmean, ?_, ?_, ?_⟩
  · rw [hmean]
    exact div_nonneg (Nat.cast_nonneg _) (Nat.cast_nonneg _)
  · rw [hmean]
    rcases Nat.eq_zero_or_pos xs.length with hlen | hlen
    · simp [hlen]
    · rw [div_le_one (by exact_mod_cast hlen)]
      exact_mod_cast List.count_le_length 1 xs
  · exact div_nonneg (Real.sqrt_nonneg _) (Real.sqrt_nonneg _)

/-- Concrete instance of `empirical_probability_contract` on the 0/1 trace
`[1, 0, 1, 1]`. -/
theorem empirical_probability_contract_witness :
    (∀ x ∈ ([1, 0, 1, 1] : List ℚ), x = 0 ∨ x = 1) ∧
    ((empirical_probability [1, 0, 1, 1]).1 =
        (([1, 0, 1, 1] : List ℚ).count 1 : ℚ) /
          ([1, 0, 1, 1] : List ℚ).length ∧
      0 ≤ (empirical_probability [1, 0, 1, 1]).1 ∧
      (empirical_probability [1, 0, 1, 1]).1 ≤ 1 ∧
      0 ≤ (empirical_probability [1, 0, 1, 1]).2) :=
  ⟨by decide, empirical_probability_contract [1, 0, 1, 1] (by decide)⟩

/-- The Gaussian kernel. -/
noncomputable def gaussKernel (t : ℝ) : ℝ :=
  Real.exp (-(t ^ 2) / 2) / Real.sqrt (2 * Real.pi)

theorem gaussKernel_nonneg (t : ℝ) : 0 ≤ gaussKernel t :=
  div_nonneg (Real.exp_pos _).le (Real.sqrt_nonneg _)

/-- Modelled from the spec: scipy's `gaussian_kde` bandwidth selection is
external library code; §4.3 asks for a standard rule such as Silverman's,
`h = 1.06 · σ · n ^ (-1/5)` over the trace values. -/
noncomputable def bandwidth (xs : List ℚ) : ℝ :=
  1.06 * Real.sqrt (sampleVariance xs : ℝ) * (xs.length : ℝ) ^ (-(1 : ℝ) / 5)

/-- Modelled from the spec: `density_at(trace, var, x)` (§4.3), the
notebook's `gaussian_kde(mytrace['x2'])` evaluated at a point — the
Gaussian-kernel density estimate `(1 / (n·h)) · Σᵢ K((x - xᵢ) / h)` over
the trace values of the variable, with bandwidth `h` from Silverman's
rule. -/
noncomputable def density_at (xs : List ℚ) (x : ℝ) : ℝ :=
  (xs.map fun xi => gaussKernel ((x - (xi : ℝ)) / bandwidth xs)).sum /
    ((xs.length : ℝ) * bandwidth xs)

theorem bandwidth_nonneg (xs : List ℚ) : 0 ≤ bandwidth xs :=
  mul_nonneg (mul_nonneg (by norm_num) (Real.sqrt_nonneg _))
    (Real.rpow_nonneg (Nat.cast_nonneg _) _)

/-- C6: for every trace and every evaluation point `x`, the kernel density
estimate `density_at` — a Gaussian kernel with Silverman-rule bandwidth
over the trace values — is nonnegative. -/
theorem density_at_nonneg (xs : List ℚ) (x : ℝ) : 0 ≤ density_at xs x := by
  apply div_nonneg
  · apply List.sum_nonneg
    intro y hy
    simp only [List.mem_map] at hy
    obtain ⟨xi, _, rfl⟩ := hy
    exact gaussKernel_nonneg _
  · exact mul_nonneg (Nat.cast_nonneg _) (bandwidth_nonneg xs)

/-- The notebook's discretised interval estimate for `x2` (Exercise 2):
`(len(t) - sum(t > 51) - sum(t < 50)) / len(t)` with strict comparisons. -/
def intervalEstimate (xs : List ℚ) : ℚ :=
  ((xs.length : ℚ) - (xs.countP fun x => decide (51 < x)) -
      (xs.countP fun x => decide (x < 50))) / (xs.length : ℚ)

theorem count_partition (xs : List ℚ) :
    xs.countP (fun x => decide (51 < x)) +
      xs.countP (fun x => decide (x < 50)) +
      xs.countP (fun x => decide (50 ≤ x) && decide (x ≤ 51)) = xs.length := by
  induction xs with
  | nil => simp
  | cons a t ih =>
    simp only [List.countP_cons, List.length_cons]
    by_cases h1 : 51 < a
    · have h2 : ¬a < 50 := by linarith
      have h3 : ¬a ≤ 51 := not_le.mpr h1
      simp [h1, h2, h3]
      omega
    · by_cases h2 : a < 50
      · have h3 : ¬50 ≤ a := not_le.mpr h2
        simp [h1, h2, h3]
        omega
      · have h3 : 50 ≤ a := le_of_not_lt h2
        have h4 : a ≤ 51 := le_of_not_lt h1
        simp [h1, h2, h3, h4]
        omega

/-- C10: the interval estimate computed for `x2` — total count minus the
count of samples strictly above 51 minus the count strictly below 50, all
over the total count — equals the fraction of samples `x` with
`50 ≤ x ≤ 51`, and therefore lies in [0, 1]. -/
theorem intervalEstimate_band (xs : List ℚ) (h : 0 < xs.length) :
    intervalEstimate xs =
      (xs.countP (fun x => decide (50 ≤ x) && decide (x ≤ 51)) : ℚ) /
        (xs.length : ℚ) ∧
    0 ≤ intervalEstimate xs ∧ intervalEstimate xs ≤ 1 := by
  have hlen : (0 : ℚ) < (xs.length : ℚ) := by exact_mod_cast h
  have heq : (xs.length : ℚ) - (xs.countP fun x => decide (51 < x)) -
      (xs.countP fun x => decide (x < 50)) =
      (xs.countP (fun x => decide (50 ≤ x) && decide (x ≤ 51)) : ℚ) := by
    have hc := congrArg (Nat.cast : ℕ → ℚ) (count_partition xs)
    push_cast at hc
    linarith
  refine ⟨by rw [intervalEstimate, heq], ?_, ?_⟩
  · rw [intervalEstimate, heq]
    exact div_nonneg (Nat.cast_nonneg _) hlen.le
  · rw [intervalEstimate, heq, div_le_one hlen]
    exact_mod_cast List.countP_le_length _

/-- Concrete instance of `intervalEstimate_band` on `[49, 50, 51, 52]`
(two of four samples fall in the band, so the estimate is 1/2). -/
theorem intervalEstimate_band_witness :
    0 < ([49, 50, 51, 52] : List ℚ).length ∧
    (intervalEstimate [49, 50, 51, 52] =
        (([49, 50, 51, 52] : List ℚ).countP
            (fun x => decide (50 ≤ x) && decide (x ≤ 51)) : ℚ) /
          (([49, 50, 51, 52] : List ℚ).length : ℚ) ∧
      0 ≤ intervalEstimate [49, 50, 51, 52] ∧
      intervalEstimate [49, 50, 51, 52] ≤ 1) :=
  ⟨by decide, intervalEstimate_band [49, 50, 51, 52] (by decide)⟩

end BBNet
